import Mathlib

/-!
Shallow embedding of the sagal-app-backend order lifecycle engine.

The embedded code:
* `createOrder` (src/controllers/orderController.js): alias extraction,
  request validation, construction of the `orderData` object passed to
  `Order.create`.
* The lenient Order schema (the variant with `pre('validate')` and
  `pre('save')` hooks): schema defaults, the pre-validate check, path
  validators, and the save-time normalization.
* `updateOrderStatus`, `getOrderStats` and `searchOrders` from the same
  controller, with the persistent store modelled as an association list.

JavaScript `x || y` on optional strings/numbers is modelled by `jsStrOr` /
`jsNumOr`, with `undefined` as `none` and the falsy values `""` and `0`
treated as in JS.
-/

/-- JS truthiness of an optional string: `undefined` and `""` are falsy. -/
def jsTruthyStr : Option String → Bool
  | none => false
  | some s => !(s == "")

/-- JS `a || b` on optional strings. -/
def jsStrOr (a b : Option String) : Option String :=
  if jsTruthyStr a then a else b

/-- JS truthiness of an optional number: `undefined` and `0` are falsy. -/
def jsTruthyNum : Option ℚ → Bool
  | none => false
  | some q => !(q == 0)

/-- JS `a || b` on optional numbers. -/
def jsNumOr (a b : Option ℚ) : Option ℚ :=
  if jsTruthyNum a then a else b

/-- JS `x <= 0` on an optional number: `undefined <= 0` is `false` (NaN). -/
def jsLeZero : Option ℚ → Bool
  | none => false
  | some q => q ≤ 0

/-- The nested `customer{name,phone,address}` sub-object of a request body. -/
structure Customer where
  name : Option String
  phone : Option String
  address : Option String
deriving DecidableEq

/-- The optional `location{latitude,longitude,address}` sub-object. -/
structure Location where
  latitude : Option ℚ
  longitude : Option ℚ
  address : Option String
deriving DecidableEq

/-- A line item as it may arrive in a request (`id` is the raw numeric id
    that `createOrder` stringifies into `productId`) and as it is stored. -/
structure Item where
  productId : Option String
  id : Option Nat
  name : Option String
  quantity : Option ℚ
  price : Option ℚ
  image : Option String
  product : Option String
deriving DecidableEq

/-- The request body accepted by `createOrder`.  A client may also send a
    `status` field; `createOrder` never destructures it, so it is dropped. -/
structure RawPayload where
  customerName : Option String
  phoneNumber : Option String
  address : Option String
  customer : Option Customer
  items : Option (List Item)
  totalAmount : Option ℚ
  total : Option ℚ
  paymentMethod : Option String
  location : Option Location
  deliveryAddress : Option String
  status : Option String
deriving DecidableEq

/-- `finalCustomerName = customerName || (customer && customer.name)`. -/
def finalCustomerName (p : RawPayload) : Option String :=
  jsStrOr p.customerName (p.customer.bind Customer.name)

/-- `finalPhoneNumber = phoneNumber || (customer && customer.phone)`. -/
def finalPhoneNumber (p : RawPayload) : Option String :=
  jsStrOr p.phoneNumber (p.customer.bind Customer.phone)

/-- `finalAddress = address || deliveryAddress || (customer && customer.address)`. -/
def finalAddress (p : RawPayload) : Option String :=
  jsStrOr p.address (jsStrOr p.deliveryAddress (p.customer.bind Customer.address))

/-- `finalTotalAmount = totalAmount || total`. -/
def finalTotalAmount (p : RawPayload) : Option ℚ :=
  jsNumOr p.totalAmount p.total

/-- The item mapping used both by `createOrder` and by the `pre('save')`
    hook: `productId: item.productId || item.id?.toString(),
    name: item.name || item.product, ..., product: item.product || item.name`. -/
def normItem (item : Item) : Item :=
  { productId := jsStrOr item.productId (item.id.map toString)
    id := none
    name := jsStrOr item.name item.product
    quantity := item.quantity
    price := item.price
    image := item.image
    product := jsStrOr item.product item.name }

/-- The errors `createOrder` can answer with (each corresponds to one
    distinct 400 response body). -/
inductive CreateError
  | missingCustomerInfo
  | emptyItemList
  | invalidTotal
  | createFailed
deriving DecidableEq

/-- The human-readable message of each `createOrder` error response. -/
def CreateError.message : CreateError → String
  | .missingCustomerInfo => "Please provide customer name, phone number, and address"
  | .emptyItemList => "Please add at least one item to the order"
  | .invalidTotal => "Total amount must be greater than 0"
  | .createFailed => "Failed to place order. Please try again."

/-- The `orderData` object `createOrder` passes to `Order.create`.
    Note it carries no `status` key. -/
structure OrderData where
  customerName : Option String
  phoneNumber : Option String
  address : Option String
  deliveryAddress : Option String
  customer : Customer
  location : Option Location
  items : List Item
  totalAmount : Option ℚ
  total : Option ℚ
  paymentMethod : String
  orderNumber : String
deriving DecidableEq

/-- Construction of `orderData` from the extracted fields (the object
    literal at the end of the happy path of `createOrder`). -/
def buildOrderData (orderNum : String) (p : RawPayload) (items : List Item) : OrderData :=
  { customerName := finalCustomerName p
    phoneNumber := finalPhoneNumber p
    address := finalAddress p
    deliveryAddress := finalAddress p
    customer := p.customer.getD
      { name := finalCustomerName p
        phone := finalPhoneNumber p
        address := finalAddress p }
    location := p.location
    items := items.map normItem
    totalAmount := finalTotalAmount p
    total := finalTotalAmount p
    paymentMethod := (jsStrOr p.paymentMethod (some "cash_on_delivery")).getD "cash_on_delivery"
    orderNumber := orderNum }

/-- The request-validation and normalization phase of `createOrder`:
    checks customer info, non-empty items, positive total (in that order)
    and otherwise builds `orderData`. -/
def createOrder (orderNum : String) (p : RawPayload) : Except CreateError OrderData :=
  if !(jsTruthyStr (finalCustomerName p)) || !(jsTruthyStr (finalPhoneNumber p)) ||
      !(jsTruthyStr (finalAddress p)) then
    .error .missingCustomerInfo
  else
    match p.items with
    | none => .error .emptyItemList
    | some items =>
      if items.length == 0 then .error .emptyItemList
      else
        if !(jsTruthyNum (finalTotalAmount p)) || jsLeZero (finalTotalAmount p) then
          .error .invalidTotal
        else
          .ok (buildOrderData orderNum p items)

/-- The closed status enumeration of the Order schema. -/
def statusEnum : List String :=
  ["pending", "confirmed", "preparing", "on_the_way", "delivered", "cancelled"]

/-- The closed payment-method enumeration of the Order schema. -/
def paymentEnum : List String := ["cash_on_delivery", "online"]

/-- A persisted Order document (the lenient schema variant), with the
    schema's administrative fields and the store-assigned `createdAt`. -/
structure OrderDoc where
  customerName : Option String
  phoneNumber : Option String
  address : Option String
  deliveryAddress : Option String
  customer : Option Customer
  location : Option Location
  items : List Item
  totalAmount : Option ℚ
  total : Option ℚ
  paymentMethod : String
  status : String
  orderNumber : String
  notes : Option String
  assignedDriver : Option String
  estimatedDelivery : Option String
  createdAt : Nat
deriving DecidableEq

/-- Instantiating a document from `orderData`: schema defaults apply to
    the paths `orderData` does not carry, in particular `status` defaults
    to `"pending"`. -/
def toDoc (now : Nat) (od : OrderData) : OrderDoc :=
  { customerName := od.customerName
    phoneNumber := od.phoneNumber
    address := od.address
    deliveryAddress := od.deliveryAddress
    customer := some od.customer
    location := od.location
    items := od.items
    totalAmount := od.totalAmount
    total := od.total
    paymentMethod := od.paymentMethod
    status := "pending"
    orderNumber := od.orderNumber
    notes := none
    assignedDriver := none
    estimatedDelivery := none
    createdAt := now }

/-- `pre('validate')`: customer info present in root or nested form. -/
def hasRootCustomerInfo (d : OrderDoc) : Bool :=
  jsTruthyStr d.customerName && jsTruthyStr d.phoneNumber && jsTruthyStr d.address

/-- `pre('validate')`: nested customer info all present. -/
def hasNestedCustomerInfo (d : OrderDoc) : Bool :=
  jsTruthyStr (d.customer.bind Customer.name) &&
  jsTruthyStr (d.customer.bind Customer.phone) &&
  jsTruthyStr (d.customer.bind Customer.address)

/-- `pre('validate')`: `totalAmount` or `total` is neither undefined nor null. -/
def hasTotalEither (d : OrderDoc) : Bool :=
  d.totalAmount.isSome || d.total.isSome

/-- The whole `pre('validate')` middleware as a boolean check. -/
def preValidateOk (d : OrderDoc) : Bool :=
  (hasRootCustomerInfo d || hasNestedCustomerInfo d) && hasTotalEither d

/-- Schema validation of one stored item: `name` required (a required
    string must be present and non-empty), `quantity` required with
    `min 1`, `price` required. -/
def itemValid (i : Item) : Bool :=
  jsTruthyStr i.name &&
  (match i.quantity with
   | none => false
   | some q => 1 ≤ q) &&
  i.price.isSome

/-- Schema path validation of a document: item validators, the
    `paymentMethod` and `status` enums, and the required `orderNumber`. -/
def docValid (d : OrderDoc) : Bool :=
  d.items.all itemValid &&
  paymentEnum.contains d.paymentMethod &&
  statusEnum.contains d.status &&
  !(d.orderNumber == "")

/-- `pre('save')` block 1: copy nested customer fields to the root when
    present and the root is falsy. -/
def copyCustomerToRoot (d : OrderDoc) : OrderDoc :=
  let d1 :=
    if jsTruthyStr (d.customer.bind Customer.name) then
      { d with customerName := jsStrOr d.customerName (d.customer.bind Customer.name) }
    else d
  let d2 :=
    if jsTruthyStr (d1.customer.bind Customer.phone) then
      { d1 with phoneNumber := jsStrOr d1.phoneNumber (d1.customer.bind Customer.phone) }
    else d1
  if jsTruthyStr (d2.customer.bind Customer.address) then
    { d2 with address := jsStrOr d2.address (d2.customer.bind Customer.address) }
  else d2

/-- `pre('save')` block 2: if `total` is present, `totalAmount = totalAmount || total`. -/
def copyTotal (d : OrderDoc) : OrderDoc :=
  if d.total.isSome then { d with totalAmount := jsNumOr d.totalAmount d.total } else d

/-- `pre('save')` block 3: `if (deliveryAddress && !address) address = deliveryAddress`. -/
def copyDeliveryAddress (d : OrderDoc) : OrderDoc :=
  if jsTruthyStr d.deliveryAddress && !(jsTruthyStr d.address) then
    { d with address := d.deliveryAddress }
  else d

/-- `pre('save')` block 4: `if (location && location.address && !address)
    address = location.address`. -/
def copyLocationAddress (d : OrderDoc) : OrderDoc :=
  if jsTruthyStr (d.location.bind Location.address) && !(jsTruthyStr d.address) then
    { d with address := d.location.bind Location.address }
  else d

/-- `pre('save')` block 5: re-map the items when the list is non-empty. -/
def normalizeItems (d : OrderDoc) : OrderDoc :=
  if d.items.length > 0 then { d with items := d.items.map normItem } else d

/-- The whole `pre('save')` middleware, blocks in source order. -/
def preSave (d : OrderDoc) : OrderDoc :=
  normalizeItems (copyLocationAddress (copyDeliveryAddress (copyTotal (copyCustomerToRoot d))))

/-- `Order.create(orderData)`: defaults, `pre('validate')`, schema
    validation, then the `pre('save')` normalization; any mongoose error is
    caught by the controller and reported as the generic create failure. -/
def orderCreate (now : Nat) (od : OrderData) : Except CreateError OrderDoc :=
  let d := toDoc now od
  if preValidateOk d && docValid d then .ok (preSave d)
  else .error .createFailed

/-- The whole customer-facing submission pipeline: `createOrder`'s
    extraction/validation followed by `Order.create` with its hooks. -/
def submit (now : Nat) (orderNum : String) (p : RawPayload) : Except CreateError OrderDoc :=
  match createOrder orderNum p with
  | .error e => .error e
  | .ok od => orderCreate now od

/-- The outcome of `updateOrderStatus`: the updated document, a 404, or
    the caught mongoose validator error (status outside the enum). -/
inductive UpdateResult
  | ok (d : OrderDoc)
  | notFound
  | statusValidationError
deriving DecidableEq

/-- `runValidators` on the update object: an `undefined` status is
    stripped from the update, a provided one must belong to the enum. -/
def statusUpdateValid : Option String → Bool
  | none => true
  | some s => statusEnum.contains s

/-- The update document `{ status, ...(assignedDriver && {assignedDriver}),
    ...(notes && {notes}), ...(estimatedDelivery && {estimatedDelivery}) }`
    applied to a found order. -/
def applyStatusUpdate (d : OrderDoc)
    (status assignedDriver notes estimatedDelivery : Option String) : OrderDoc :=
  { d with
    status := status.getD d.status
    assignedDriver := if jsTruthyStr assignedDriver then assignedDriver else d.assignedDriver
    notes := if jsTruthyStr notes then notes else d.notes
    estimatedDelivery :=
      if jsTruthyStr estimatedDelivery then estimatedDelivery else d.estimatedDelivery }

/-- `Order.findById`-style lookup in the store. -/
def findById (store : List (String × OrderDoc)) (id : String) : Option OrderDoc :=
  (store.find? (fun kv => kv.fst == id)).map Prod.snd

/-- Writing an updated document back under its id. -/
def storeSet (store : List (String × OrderDoc)) (id : String) (d : OrderDoc) :
    List (String × OrderDoc) :=
  store.map (fun kv => if kv.fst == id then (kv.fst, d) else kv)

/-- `updateOrderStatus`: `findByIdAndUpdate(id, {status, ...admin}, {new:
    true, runValidators: true})`; a validator failure writes nothing. -/
def updateOrderStatus (store : List (String × OrderDoc)) (id : String)
    (status assignedDriver notes estimatedDelivery : Option String) :
    List (String × OrderDoc) × UpdateResult :=
  match findById store id with
  | none => (store, .notFound)
  | some d =>
    if statusUpdateValid status then
      let d2 := applyStatusUpdate d status assignedDriver notes estimatedDelivery
      (storeSet store id d2, .ok d2)
    else (store, .statusValidationError)

/-- The statistics object assembled by `getOrderStats`. -/
structure OrderStats where
  totalOrders : Nat
  pendingOrders : Nat
  confirmedOrders : Nat
  preparingOrders : Nat
  deliveryOrders : Nat
  deliveredOrders : Nat
  cancelledOrders : Nat
  todayOrders : Nat
  totalRevenue : ℚ
  todayRevenue : ℚ
deriving DecidableEq

/-- `Order.countDocuments(filter)`. -/
def countDocuments (orders : List OrderDoc) (p : OrderDoc → Bool) : Nat :=
  (orders.filter p).length

/-- The `$match` + `$group/$sum: totalAmount` aggregation pipeline. -/
def aggregateSumTotalAmount (orders : List OrderDoc) (p : OrderDoc → Bool) : ℚ :=
  (orders.filter p).foldl (fun acc o => acc + o.totalAmount.getD 0) 0

/-- `getOrderStats`, with the local-midnight boundary passed in as
    `startOfToday`. -/
def getOrderStats (startOfToday : Nat) (orders : List OrderDoc) : OrderStats :=
  { totalOrders := orders.length
    pendingOrders := countDocuments orders (fun o => o.status == "pending")
    confirmedOrders := countDocuments orders (fun o => o.status == "confirmed")
    preparingOrders := countDocuments orders (fun o => o.status == "preparing")
    deliveryOrders := countDocuments orders (fun o => o.status == "on_the_way")
    deliveredOrders := countDocuments orders (fun o => o.status == "delivered")
    cancelledOrders := countDocuments orders (fun o => o.status == "cancelled")
    todayOrders := countDocuments orders (fun o => startOfToday ≤ o.createdAt)
    totalRevenue := aggregateSumTotalAmount orders (fun o => o.status == "delivered")
    todayRevenue := aggregateSumTotalAmount orders
      (fun o => o.status == "delivered" && startOfToday ≤ o.createdAt) }

/-- Whether the first character list is an initial segment of the second. -/
def charsStartWith : List Char → List Char → Bool
  | [], _ => true
  | _ :: _, [] => false
  | c :: cs, h :: hs => c == h && charsStartWith cs hs

/-- Whether the first character list occurs contiguously in the second. -/
def charsSubstring (pat : List Char) : List Char → Bool
  | [] => pat.isEmpty
  | h :: hs => charsStartWith pat (h :: hs) || charsSubstring pat hs

/-- The characters of a string folded to lower case. -/
def lowerChars (s : String) : List Char :=
  s.toList.map Char.toLower

/-- `$regex: pattern, $options: 'i'` with a literal pattern against a
    present string field: case-insensitive substring test. -/
def regexTestCI (pattern hay : String) : Bool :=
  charsSubstring (lowerChars pattern) (lowerChars hay)

/-- The same regex test against an optional field: a missing field never
    matches. -/
def fieldMatches (field : Option String) (pattern : String) : Bool :=
  match field with
  | none => false
  | some s => regexTestCI pattern s

/-- The filter document built by `searchOrders`: an `$or` over
    customerName / orderNumber / address when `query` is truthy, plus a
    `phoneNumber` regex when `phone` is truthy. -/
def searchMatch (query phone : Option String) (o : OrderDoc) : Bool :=
  (match query with
   | none => true
   | some q =>
     if q == "" then true
     else
       fieldMatches o.customerName q || regexTestCI q o.orderNumber ||
         fieldMatches o.address q) &&
  (match phone with
   | none => true
   | some ph =>
     if ph == "" then true else fieldMatches o.phoneNumber ph)

/-- Insertion into a list kept sorted by `createdAt` descending. -/
def insertByCreatedAtDesc (o : OrderDoc) : List OrderDoc → List OrderDoc
  | [] => [o]
  | x :: xs =>
    if o.createdAt ≤ x.createdAt then x :: insertByCreatedAtDesc o xs
    else o :: x :: xs

/-- `.sort({ createdAt: -1 })`: newest first. -/
def sortByCreatedAtDesc (l : List OrderDoc) : List OrderDoc :=
  l.foldr insertByCreatedAtDesc []

/-- `searchOrders`: `Order.find(searchQuery).sort({createdAt: -1}).limit(100)`. -/
def searchOrders (orders : List OrderDoc) (query phone : Option String) : List OrderDoc :=
  (sortByCreatedAtDesc (orders.filter (searchMatch query phone))).take 100

/-! ### Concrete test fixtures -/

/-- A schema-valid line item. -/
def sampleItem : Item :=
  { productId := none, id := none, name := some "tea", quantity := some 1,
    price := some 2, image := none, product := none }

/-- A fully valid flat-field submission (it also carries a client-supplied
    `status`, which `createOrder` ignores). -/
def samplePayload : RawPayload :=
  { customerName := some "Ali", phoneNumber := some "1", address := some "Main",
    customer := none, items := some [sampleItem], totalAmount := some 10, total := none,
    paymentMethod := none, location := none, deliveryAddress := none,
    status := some "delivered" }

/-- A location sub-object with a human-readable address. -/
def sampleLocation : Location :=
  { latitude := some 1, longitude := some 2, address := some "Loc St" }

/-- Empty item list and missing customer name at the same time. -/
def cexC3Payload : RawPayload :=
  { samplePayload with customerName := none, items := some [] }

/-- A valid submission except that the item list is empty. -/
def c3WitnessPayload : RawPayload :=
  { samplePayload with items := some [] }

/-- No flat address anywhere, but `location.address` supplied. -/
def cexC9Payload : RawPayload :=
  { samplePayload with address := none, location := some sampleLocation }

/-- A document reaching save-time with no address but a location address. -/
def c9DocNoAddr : OrderDoc :=
  { customerName := some "Ali", phoneNumber := some "1", address := none,
    deliveryAddress := none, customer := none, location := some sampleLocation,
    items := [sampleItem], totalAmount := some 10, total := none,
    paymentMethod := "cash_on_delivery", status := "pending", orderNumber := "ORD-9D",
    notes := none, assignedDriver := none, estimatedDelivery := none, createdAt := 0 }

/-- `totalAmount` explicitly present but `0`, with `total = 7`. -/
def cexC2Payload : RawPayload :=
  { samplePayload with totalAmount := some 0, total := some 7 }

/-- A fallback document (used only to totalize fixture extraction). -/
def fallbackDoc : OrderDoc :=
  { customerName := none, phoneNumber := none, address := none,
    deliveryAddress := none, customer := none, location := none, items := [],
    totalAmount := none, total := none, paymentMethod := "cash_on_delivery",
    status := "pending", orderNumber := "X", notes := none, assignedDriver := none,
    estimatedDelivery := none, createdAt := 0 }

/-- The document persisted for `samplePayload`. -/
def c10Doc : OrderDoc := (submit 5 "ORD-1" samplePayload).toOption.getD fallbackDoc

/-- Valid except that `totalAmount` is `0` (and `total` is absent). -/
def c4ZeroPayload : RawPayload := { samplePayload with totalAmount := some 0 }

/-- Valid except that `totalAmount` is negative. -/
def c4NegPayload : RawPayload := { samplePayload with totalAmount := some (-5) }

/-- Valid with `totalAmount = 0.01`. -/
def c4SmallPayload : RawPayload := { samplePayload with totalAmount := some (1 / 100) }

/-- A persisted document fixture for search/update scenarios. -/
def mkStoredDoc (nm num ph : String) (t : Nat) : OrderDoc :=
  { customerName := some nm, phoneNumber := some ph, address := some "Elm Road",
    deliveryAddress := none, customer := none, location := none, items := [sampleItem],
    totalAmount := some 1, total := none, paymentMethod := "cash_on_delivery",
    status := "pending", orderNumber := num, notes := none, assignedDriver := none,
    estimatedDelivery := none, createdAt := t }

/-- Stored order with phone `555-0100`, newest. -/
def searchDocA : OrderDoc := mkStoredDoc "Alice" "ORD-A" "555-0100" 3

/-- Stored order with phone `555-0101`. -/
def searchDocB : OrderDoc := mkStoredDoc "Bob" "ORD-B" "555-0101" 2

/-- Stored order with the unrelated phone `777-0200`, oldest. -/
def searchDocC : OrderDoc := mkStoredDoc "Carol" "ORD-C" "777-0200" 1

/-- A one-order store for the status-update scenarios. -/
def c5Store : List (String × OrderDoc) := [("o1", searchDocA)]

/-- A valid submission with the given total. -/
def statsPayloadT (t : ℚ) : RawPayload := { samplePayload with totalAmount := some t }

/-- Three orders created through the full submission pipeline with totals
    10, 20 and 99. -/
def statsStore0 : List (String × OrderDoc) :=
  match submit 1 "S1" (statsPayloadT 10), submit 2 "S2" (statsPayloadT 20),
      submit 3 "S3" (statsPayloadT 99) with
  | .ok d1, .ok d2, .ok d3 => [("1", d1), ("2", d2), ("3", d3)]
  | _, _, _ => []

/-- The same store after marking the first two orders `delivered`. -/
def statsStore2 : List (String × OrderDoc) :=
  (updateOrderStatus
    (updateOrderStatus statsStore0 "1" (some "delivered") none none none).fst
    "2" (some "delivered") none none none).fst

/-- The three stored documents of the statistics scenario. -/
def statsDocs : List OrderDoc := statsStore2.map Prod.snd

/-! ### Frame lemmas for the `pre('save')` pipeline -/

theorem copyCustomerToRoot_status (d : OrderDoc) :
    (copyCustomerToRoot d).status = d.status := by
  simp only [copyCustomerToRoot]
  repeat' split
  all_goals rfl

theorem copyCustomerToRoot_totalAmount (d : OrderDoc) :
    (copyCustomerToRoot d).totalAmount = d.totalAmount := by
  simp only [copyCustomerToRoot]
  repeat' split
  all_goals rfl

theorem copyCustomerToRoot_total (d : OrderDoc) :
    (copyCustomerToRoot d).total = d.total := by
  simp only [copyCustomerToRoot]
  repeat' split
  all_goals rfl

theorem copyCustomerToRoot_deliveryAddress (d : OrderDoc) :
    (copyCustomerToRoot d).deliveryAddress = d.deliveryAddress := by
  simp only [copyCustomerToRoot]
  repeat' split
  all_goals rfl

theorem copyCustomerToRoot_location (d : OrderDoc) :
    (copyCustomerToRoot d).location = d.location := by
  simp only [copyCustomerToRoot]
  repeat' split
  all_goals rfl

theorem copyCustomerToRoot_customer (d : OrderDoc) :
    (copyCustomerToRoot d).customer = d.customer := by
  simp only [copyCustomerToRoot]
  repeat' split
  all_goals rfl

theorem copyCustomerToRoot_address_of_falsy (d : OrderDoc)
    (h : jsTruthyStr (d.customer.bind Customer.address) = false) :
    (copyCustomerToRoot d).address = d.address := by
  simp only [copyCustomerToRoot]
  repeat' split
  all_goals simp_all

theorem copyTotal_status (d : OrderDoc) : (copyTotal d).status = d.status := by
  unfold copyTotal; split <;> rfl

theorem copyTotal_address (d : OrderDoc) : (copyTotal d).address = d.address := by
  unfold copyTotal; split <;> rfl

theorem copyTotal_deliveryAddress (d : OrderDoc) :
    (copyTotal d).deliveryAddress = d.deliveryAddress := by
  unfold copyTotal; split <;> rfl

theorem copyTotal_location (d : OrderDoc) : (copyTotal d).location = d.location := by
  unfold copyTotal; split <;> rfl

theorem copyTotal_totalAmount (d : OrderDoc) :
    (copyTotal d).totalAmount =
      if d.total.isSome then jsNumOr d.totalAmount d.total else d.totalAmount := by
  unfold copyTotal; split <;> simp [*]

theorem copyDeliveryAddress_status (d : OrderDoc) :
    (copyDeliveryAddress d).status = d.status := by
  unfold copyDeliveryAddress; split <;> rfl

theorem copyDeliveryAddress_totalAmount (d : OrderDoc) :
    (copyDeliveryAddress d).totalAmount = d.totalAmount := by
  unfold copyDeliveryAddress; split <;> rfl

theorem copyDeliveryAddress_location (d : OrderDoc) :
    (copyDeliveryAddress d).location = d.location := by
  unfold copyDeliveryAddress; split <;> rfl

theorem copyDeliveryAddress_of_falsy (d : OrderDoc)
    (h : jsTruthyStr d.deliveryAddress = false) : copyDeliveryAddress d = d := by
  unfold copyDeliveryAddress; simp [h]

theorem copyLocationAddress_status (d : OrderDoc) :
    (copyLocationAddress d).status = d.status := by
  unfold copyLocationAddress; split <;> rfl

theorem copyLocationAddress_totalAmount (d : OrderDoc) :
    (copyLocationAddress d).totalAmount = d.totalAmount := by
  unfold copyLocationAddress; split <;> rfl

theorem copyLocationAddress_address (d : OrderDoc) :
    (copyLocationAddress d).address =
      if jsTruthyStr (d.location.bind Location.address) && !(jsTruthyStr d.address) then
        d.location.bind Location.address
      else d.address := by
  unfold copyLocationAddress; split <;> simp [*]

theorem normalizeItems_status (d : OrderDoc) : (normalizeItems d).status = d.status := by
  unfold normalizeItems; split <;> rfl

theorem normalizeItems_totalAmount (d : OrderDoc) :
    (normalizeItems d).totalAmount = d.totalAmount := by
  unfold normalizeItems; split <;> rfl

theorem normalizeItems_address (d : OrderDoc) :
    (normalizeItems d).address = d.address := by
  unfold normalizeItems; split <;> rfl

theorem preSave_status (d : OrderDoc) : (preSave d).status = d.status := by
  unfold preSave
  rw [normalizeItems_status, copyLocationAddress_status, copyDeliveryAddress_status,
    copyTotal_status, copyCustomerToRoot_status]

theorem preSave_totalAmount (d : OrderDoc) :
    (preSave d).totalAmount =
      if d.total.isSome then jsNumOr d.totalAmount d.total else d.totalAmount := by
  unfold preSave
  rw [normalizeItems_totalAmount, copyLocationAddress_totalAmount,
    copyDeliveryAddress_totalAmount, copyTotal_totalAmount,
    copyCustomerToRoot_totalAmount, copyCustomerToRoot_total]

/-! ### Claim theorems -/

/-- C10: for every successful `submit`, the created order's status is
    `"pending"`, even when the raw payload carries a `status` field — the
    client-supplied status never reaches the persisted record. -/
theorem submit_status_always_pending (now : Nat) (num : String) (p : RawPayload)
    (d : OrderDoc) (h : submit now num p = .ok d) : d.status = "pending" := by
  unfold submit at h
  split at h
  · exact absurd h (by simp)
  · simp only [orderCreate] at h
    split at h
    · have hd := Except.ok.inj h
      rw [← hd, preSave_status]
      rfl
    · exact absurd h (by simp)

/-- C10 witness: `samplePayload` carries `status = "delivered"`, yet the
    persisted document is `"pending"`. -/
theorem submit_status_always_pending_witness :
    samplePayload.status = some "delivered" ∧
      submit 5 "ORD-1" samplePayload = .ok c10Doc ∧ c10Doc.status = "pending" :=
  ⟨rfl, by rfl,
    submit_status_always_pending 5 "ORD-1" samplePayload c10Doc (by rfl)⟩

/-- C3 counterexample: with `items = []` and the customer name missing,
    `submit` fails with the missing-customer-info error, not the
    empty-item-list error — so empty items do not yield `EmptyItemList`
    regardless of the other fields. -/
theorem create_empty_items_counterexample :
    cexC3Payload.items = some [] ∧
      submit 0 "ORD-3" cexC3Payload = .error .missingCustomerInfo ∧
      CreateError.missingCustomerInfo ≠ CreateError.emptyItemList := by
  refine ⟨rfl, by rfl, by decide⟩

/-- C3 (amended): `submit` with `items = []` fails with the empty-item-list
    error whenever the customer-info check passes, regardless of the total;
    when customer info is missing the missing-customer-info error takes
    precedence. -/
theorem create_empty_items_rejected (now : Nat) (num : String) (p : RawPayload)
    (h1 : jsTruthyStr (finalCustomerName p) = true)
    (h2 : jsTruthyStr (finalPhoneNumber p) = true)
    (h3 : jsTruthyStr (finalAddress p) = true)
    (h4 : p.items = some []) :
    submit now num p = .error .emptyItemList := by
  unfold submit createOrder
  simp [h1, h2, h3, h4]

/-- C3 witness: a fully valid submission except for its empty item list. -/
theorem create_empty_items_rejected_witness :
    submit 0 "ORD-3W" c3WitnessPayload = .error .emptyItemList :=
  create_empty_items_rejected 0 "ORD-3W" c3WitnessPayload
    (by decide) (by decide) (by decide) (by decide)

/-- C9 counterexample: a submission with no flat address anywhere but a
    `location.address`, and every other field valid, is rejected by
    `submit` with the missing-customer-info error instead of being
    accepted with the address populated from `location.address`. -/
theorem location_address_counterexample :
    cexC9Payload.address = none ∧ cexC9Payload.deliveryAddress = none ∧
      cexC9Payload.customer = none ∧
      cexC9Payload.location.bind Location.address = some "Loc St" ∧
      submit 0 "ORD-9" cexC9Payload = .error .missingCustomerInfo := by
  refine ⟨rfl, rfl, rfl, rfl, by rfl⟩

/-- C9 (amended): `submit` rejects any submission whose extracted address
    is falsy with the missing-customer-info error — before the save-time
    fallback can run; the `location.address` substitution lives only in the
    `pre('save')` normalization, which does populate `address` from
    `location.address` on a record reaching save with no other address. -/
theorem location_address_fallback_amended :
    (∀ (now : Nat) (num : String) (p : RawPayload),
      jsTruthyStr (finalAddress p) = false →
        submit now num p = .error .missingCustomerInfo) ∧
    (∀ d : OrderDoc,
      jsTruthyStr d.address = false →
      jsTruthyStr (d.customer.bind Customer.address) = false →
      jsTruthyStr d.deliveryAddress = false →
      jsTruthyStr (d.location.bind Location.address) = true →
        (preSave d).address = d.location.bind Location.address) := by
  constructor
  · intro now num p h
    unfold submit createOrder
    simp [h]
  · intro d h1 h2 h3 h4
    unfold preSave
    rw [normalizeItems_address]
    have hc := copyCustomerToRoot_address_of_falsy d h2
    have hdel : copyDeliveryAddress (copyTotal (copyCustomerToRoot d)) =
        copyTotal (copyCustomerToRoot d) := by
      apply copyDeliveryAddress_of_falsy
      rw [copyTotal_deliveryAddress, copyCustomerToRoot_deliveryAddress]
      exact h3
    rw [hdel, copyLocationAddress_address, copyTotal_location,
      copyCustomerToRoot_location, copyTotal_address, hc, h1, h4]
    rfl

/-- C9 witness for the amended statement: both halves instantiated at
    concrete inputs. -/
theorem location_address_fallback_amended_witness :
    submit 0 "ORD-9W" cexC9Payload = .error .missingCustomerInfo ∧
      (preSave c9DocNoAddr).address = some "Loc St" :=
  ⟨location_address_fallback_amended.1 0 "ORD-9W" cexC9Payload (by decide),
    by
      rw [location_address_fallback_amended.2 c9DocNoAddr
        (by decide) (by decide) (by decide) (by decide)]
      rfl⟩

/-- C2 counterexample: `totalAmount` is explicitly present (as `0`) yet the
    alternate `total = 7` wins: the persisted record carries `7`, so the
    flat field does not always win merely by being present. -/
theorem alias_precedence_counterexample :
    cexC2Payload.totalAmount = some 0 ∧ cexC2Payload.total = some 7 ∧
      finalTotalAmount cexC2Payload = some 7 ∧
      (submit 0 "ORD-2" cexC2Payload).toOption.map OrderDoc.totalAmount =
        some (some 7) := by
  refine ⟨rfl, rfl, by rfl, by rfl⟩

/-- C2 (amended): normalization resolves every alias pair with a fixed,
    deterministic precedence — the explicit flat field wins when it is
    present and JS-truthy (non-empty, non-zero); a present-but-falsy flat
    value defers to the nested/alternate source; the address chain is
    `address`, then `deliveryAddress`, then `customer.address`, with
    `location.address` only as the save-time fallback; and re-submission of
    the same payload normalizes identically. -/
theorem alias_precedence_amended :
    (∀ p : RawPayload, jsTruthyStr p.customerName = true →
      finalCustomerName p = p.customerName) ∧
    (∀ p : RawPayload, jsTruthyStr p.customerName = false →
      finalCustomerName p = p.customer.bind Customer.name) ∧
    (∀ p : RawPayload, jsTruthyStr p.phoneNumber = true →
      finalPhoneNumber p = p.phoneNumber) ∧
    (∀ p : RawPayload, jsTruthyStr p.phoneNumber = false →
      finalPhoneNumber p = p.customer.bind Customer.phone) ∧
    (∀ p : RawPayload, jsTruthyStr p.address = true → finalAddress p = p.address) ∧
    (∀ p : RawPayload, jsTruthyStr p.address = false →
      jsTruthyStr p.deliveryAddress = true → finalAddress p = p.deliveryAddress) ∧
    (∀ p : RawPayload, jsTruthyStr p.address = false →
      jsTruthyStr p.deliveryAddress = false →
      finalAddress p = p.customer.bind Customer.address) ∧
    (∀ d : OrderDoc, jsTruthyStr d.address = false →
      jsTruthyStr (d.customer.bind Customer.address) = false →
      jsTruthyStr d.deliveryAddress = false →
      jsTruthyStr (d.location.bind Location.address) = true →
        (preSave d).address = d.location.bind Location.address) ∧
    (∀ p : RawPayload, jsTruthyNum p.totalAmount = true →
      finalTotalAmount p = p.totalAmount) ∧
    (∀ p : RawPayload, jsTruthyNum p.totalAmount = false →
      finalTotalAmount p = p.total) ∧
    (∀ i : Item, jsTruthyStr i.name = true → (normItem i).name = i.name) ∧
    (∀ i : Item, jsTruthyStr i.name = false → (normItem i).name = i.product) ∧
    (∀ i : Item, jsTruthyStr i.productId = true → (normItem i).productId = i.productId) ∧
    (∀ i : Item, jsTruthyStr i.productId = false →
      (normItem i).productId = i.id.map toString) ∧
    (∀ (now : Nat) (num : String) (p : RawPayload),
      submit now num p = submit now num p) := by
  refine ⟨?_, ?_, ?_, ?_, ?_, ?_, ?_, ?_, ?_, ?_, ?_, ?_, ?_, ?_, ?_⟩
  · intro p h; simp [finalCustomerName, jsStrOr, h]
  · intro p h; simp [finalCustomerName, jsStrOr, h]
  · intro p h; simp [finalPhoneNumber, jsStrOr, h]
  · intro p h; simp [finalPhoneNumber, jsStrOr, h]
  · intro p h; simp [finalAddress, jsStrOr, h]
  · intro p h1 h2; simp [finalAddress, jsStrOr, h1, h2]
  · intro p h1 h2; simp [finalAddress, jsStrOr, h1, h2]
  · intro d h1 h2 h3 h4
    exact location_address_fallback_amended.2 d h1 h2 h3 h4
  · intro p h; simp [finalTotalAmount, jsNumOr, h]
  · intro p h; simp [finalTotalAmount, jsNumOr, h]
  · intro i h; simp [normItem, jsStrOr, h]
  · intro i h; simp [normItem, jsStrOr, h]
  · intro i h; simp [normItem, jsStrOr, h]
  · intro i h; simp [normItem, jsStrOr, h]
  · intro now num p; rfl

/-- C4: for an otherwise-valid submission (customer info truthy, non-empty
    item list, no `total` alias), `submit` with `totalAmount` equal to `0`
    or negative fails with the invalid-total error, and `submit` with
    `totalAmount = 0.01` succeeds. -/
theorem create_total_validation (now : Nat) (num : String) (p : RawPayload)
    (items : List Item)
    (h1 : jsTruthyStr (finalCustomerName p) = true)
    (h2 : jsTruthyStr (finalPhoneNumber p) = true)
    (h3 : jsTruthyStr (finalAddress p) = true)
    (h4 : p.items = some items) (h5 : items.length ≠ 0)
    (h6 : p.total = none) :
    (∀ q : ℚ, p.totalAmount = some q → q ≤ 0 →
      submit now num p = .error .invalidTotal) ∧
    (p.totalAmount = some (1 / 100) →
      (items.map normItem).all itemValid = true →
      paymentEnum.contains
        ((jsStrOr p.paymentMethod (some "cash_on_delivery")).getD "cash_on_delivery") =
          true →
      num ≠ "" →
      submit now num p = .ok (preSave (toDoc now (buildOrderData num p items))) ∧
        (preSave (toDoc now (buildOrderData num p items))).totalAmount =
          some (1 / 100)) := by
  have hlen : (items.length == 0) = false := by simp [h5]
  constructor
  · intro q hq hle
    have hft : (!(jsTruthyNum (finalTotalAmount p)) ||
        jsLeZero (finalTotalAmount p)) = true := by
      unfold finalTotalAmount jsNumOr
      rw [hq, h6]
      by_cases hq0 : q = 0
      · subst hq0; simp [jsTruthyNum, jsLeZero]
      · simp [jsTruthyNum, jsLeZero, hq0, hle]
    unfold submit createOrder
    simp [h1, h2, h3, h4, hlen, hft]
  · intro h7 h8 h9 h10
    have hft2 : finalTotalAmount p = some (1 / 100) := by
      unfold finalTotalAmount jsNumOr
      rw [h7, h6]
      norm_num [jsTruthyNum]
    have hcond : (!(jsTruthyNum (some ((1 : ℚ) / 100))) ||
        jsLeZero (some ((1 : ℚ) / 100))) = false := by
      norm_num [jsTruthyNum, jsLeZero]
    have hnum : (num == "") = false := by simp [h10]
    have hst : statusEnum.contains "pending" = true := by decide
    have hvalid : (preValidateOk (toDoc now (buildOrderData num p items)) &&
        docValid (toDoc now (buildOrderData num p items))) = true := by
      simp [preValidateOk, hasRootCustomerInfo, hasNestedCustomerInfo, hasTotalEither,
        docValid, toDoc, buildOrderData, h1, h2, h3, hft2, h8, hnum]
      exact ⟨by simpa using h9, by decide⟩
    constructor
    · unfold submit createOrder
      simp only [h1, h2, h3, h4, hlen, hft2, hcond, Bool.not_true, Bool.or_self,
        Bool.or_false, Bool.false_or, if_false]
      unfold orderCreate
      simp [hvalid]
    · rw [preSave_totalAmount]
      have ht : (toDoc now (buildOrderData num p items)).total = some (1 / 100) := by
        simp [toDoc, buildOrderData, hft2]
      have hta : (toDoc now (buildOrderData num p items)).totalAmount =
          some (1 / 100) := by
        simp [toDoc, buildOrderData, hft2]
      rw [ht, hta]
      norm_num [jsNumOr, jsTruthyNum]

/-- C4 witness: concrete otherwise-valid submissions with totals `0`, `-5`
    and `0.01`. -/
theorem create_total_validation_witness :
    submit 0 "ORD-4A" c4ZeroPayload = .error .invalidTotal ∧
      submit 0 "ORD-4B" c4NegPayload = .error .invalidTotal ∧
      submit 0 "ORD-4C" c4SmallPayload =
        .ok (preSave (toDoc 0 (buildOrderData "ORD-4C" c4SmallPayload [sampleItem]))) ∧
      (preSave (toDoc 0 (buildOrderData "ORD-4C" c4SmallPayload [sampleItem]))).totalAmount =
        some (1 / 100) :=
  ⟨(create_total_validation 0 "ORD-4A" c4ZeroPayload [sampleItem]
      (by decide) (by decide) (by decide) rfl (by decide) rfl).1 0 rfl le_rfl,
    (create_total_validation 0 "ORD-4B" c4NegPayload [sampleItem]
      (by decide) (by decide) (by decide) rfl (by decide) rfl).1 (-5) rfl (by norm_num),
    (create_total_validation 0 "ORD-4C" c4SmallPayload [sampleItem]
      (by decide) (by decide) (by decide) rfl (by decide) rfl).2 rfl
      (by decide) (by decide) (by decide)⟩

/-- C1: a submission carrying customer info only in the nested
    `customer{name,phone,address}` shape produces exactly the same
    persisted record as the equivalent submission carrying the same three
    values as flat `customerName`/`phoneNumber`/`address` fields, whatever
    the shared remaining fields are. -/
theorem nested_flat_equivalence (now : Nat) (num n ph a : String)
    (items : Option (List Item)) (ta t : Option ℚ) (pm : Option String)
    (loc : Option Location) (st : Option String)
    (hn : n ≠ "") (hp : ph ≠ "") (ha : a ≠ "") :
    submit now num
      { customerName := none, phoneNumber := none, address := none,
        customer := some (Customer.mk (some n) (some ph) (some a)),
        items := items, totalAmount := ta, total := t, paymentMethod := pm,
        location := loc, deliveryAddress := none, status := st } =
    submit now num
      { customerName := some n, phoneNumber := some ph, address := some a,
        customer := none, items := items, totalAmount := ta, total := t,
        paymentMethod := pm, location := loc, deliveryAddress := none,
        status := st } := by
  have hn' : (n == "") = false := by simp [hn]
  have hp' : (ph == "") = false := by simp [hp]
  have ha' : (a == "") = false := by simp [ha]
  unfold submit createOrder buildOrderData
  simp [finalCustomerName, finalPhoneNumber, finalAddress, finalTotalAmount,
    jsStrOr, jsTruthyStr, hn', hp', ha']

/-- C1 witness: the equivalence instantiated at a concrete valid
    submission pair. -/
theorem nested_flat_equivalence_witness :
    submit 7 "ORD-1W"
      { customerName := none, phoneNumber := none, address := none,
        customer := some (Customer.mk (some "Ali") (some "1") (some "Main")),
        items := some [sampleItem], totalAmount := some 10, total := none,
        paymentMethod := none, location := none, deliveryAddress := none,
        status := none } =
    submit 7 "ORD-1W"
      { customerName := some "Ali", phoneNumber := some "1",
        address := some "Main", customer := none, items := some [sampleItem],
        totalAmount := some 10, total := none, paymentMethod := none,
        location := none, deliveryAddress := none, status := none } :=
  nested_flat_equivalence 7 "ORD-1W" "Ali" "1" "Main" (some [sampleItem])
    (some 10) none none none none (by decide) (by decide) (by decide)

/-- C5: for every existing order, updating to a status inside the closed
    enumeration succeeds whatever the prior status was, and the new status
    is stored; updating to a status outside the enumeration fails with the
    status-validation error and leaves the store unchanged. -/
theorem update_status_enum_validation (store : List (String × OrderDoc))
    (id : String) (d : OrderDoc) (s : String)
    (dr nt et : Option String) (hfind : findById store id = some d) :
    (statusEnum.contains s = true →
      updateOrderStatus store id (some s) dr nt et =
        (storeSet store id (applyStatusUpdate d (some s) dr nt et),
          .ok (applyStatusUpdate d (some s) dr nt et)) ∧
      (applyStatusUpdate d (some s) dr nt et).status = s) ∧
    (statusEnum.contains s = false →
      updateOrderStatus store id (some s) dr nt et =
        (store, .statusValidationError)) := by
  constructor
  · intro hs
    constructor
    · unfold updateOrderStatus
      rw [hfind]
      simp only [statusUpdateValid, hs, if_true]
    · simp [applyStatusUpdate]
  · intro hs
    unfold updateOrderStatus
    rw [hfind]
    simp only [statusUpdateValid, hs, Bool.false_eq_true, if_false]

/-- C5 witness: on a concrete one-order store, `"delivered"` succeeds from
    the prior status `"pending"` and `"flying"` is rejected with the store
    unchanged. -/
theorem update_status_enum_validation_witness :
    (updateOrderStatus c5Store "o1" (some "delivered") none none none =
        (storeSet c5Store "o1" (applyStatusUpdate searchDocA (some "delivered") none none none),
          .ok (applyStatusUpdate searchDocA (some "delivered") none none none)) ∧
      (applyStatusUpdate searchDocA (some "delivered") none none none).status =
        "delivered") ∧
      updateOrderStatus c5Store "o1" (some "flying") none none none =
        (c5Store, .statusValidationError) :=
  ⟨(update_status_enum_validation c5Store "o1" searchDocA "delivered" none none none
      (by decide)).1 (by decide),
    (update_status_enum_validation c5Store "o1" searchDocA "flying" none none none
      (by decide)).2 (by decide)⟩

/-- C6: during a status update, each administrative field
    (`assignedDriver`, `notes`, `estimatedDelivery`) is written exactly
    when the provided value is truthy; an absent or empty value leaves the
    stored value of that field unchanged. -/
theorem update_admin_fields_frame (store : List (String × OrderDoc))
    (id : String) (d : OrderDoc) (st dr nt et : Option String)
    (hfind : findById store id = some d)
    (hst : statusUpdateValid st = true) :
    ∃ d2, (updateOrderStatus store id st dr nt et).snd = .ok d2 ∧
      (jsTruthyStr dr = false → d2.assignedDriver = d.assignedDriver) ∧
      (jsTruthyStr dr = true → d2.assignedDriver = dr) ∧
      (jsTruthyStr nt = false → d2.notes = d.notes) ∧
      (jsTruthyStr nt = true → d2.notes = nt) ∧
      (jsTruthyStr et = false → d2.estimatedDelivery = d.estimatedDelivery) ∧
      (jsTruthyStr et = true → d2.estimatedDelivery = et) := by
  refine ⟨applyStatusUpdate d st dr nt et, ?_, ?_, ?_, ?_, ?_, ?_, ?_⟩
  · unfold updateOrderStatus
    rw [hfind]
    simp [hst]
  · intro h; simp [applyStatusUpdate, h]
  · intro h; simp [applyStatusUpdate, h]
  · intro h; simp [applyStatusUpdate, h]
  · intro h; simp [applyStatusUpdate, h]
  · intro h; simp [applyStatusUpdate, h]
  · intro h; simp [applyStatusUpdate, h]

/-- C6 witness: a concrete update with a provided driver, absent notes and
    an empty estimated delivery. -/
theorem update_admin_fields_frame_witness :
    ∃ d2, (updateOrderStatus c5Store "o1" (some "confirmed") (some "Bob") none
        (some "")).snd = .ok d2 ∧
      (jsTruthyStr (some "Bob") = false → d2.assignedDriver = searchDocA.assignedDriver) ∧
      (jsTruthyStr (some "Bob") = true → d2.assignedDriver = some "Bob") ∧
      (jsTruthyStr none = false → d2.notes = searchDocA.notes) ∧
      (jsTruthyStr none = true → d2.notes = none) ∧
      (jsTruthyStr (some "") = false → d2.estimatedDelivery = searchDocA.estimatedDelivery) ∧
      (jsTruthyStr (some "") = true → d2.estimatedDelivery = some "") :=
  update_admin_fields_frame c5Store "o1" searchDocA (some "confirmed")
    (some "Bob") none (some "") (by decide) (by decide)

/-- Folding an accumulating sum equals the sum of the mapped list. -/
theorem foldl_add_eq_sum (f : OrderDoc → ℚ) (l : List OrderDoc) (acc : ℚ) :
    l.foldl (fun a o => a + f o) acc = acc + (l.map f).sum := by
  induction l generalizing acc with
  | nil => simp
  | cons x xs ih => simp [ih, add_assoc]

/-- C7: the revenue reported by the statistics equals the sum of
    `totalAmount` over exactly the orders currently in `delivered` status;
    in the concrete scenario (two orders delivered with totals 10 and 20,
    one pending with total 99, all created through the full submission
    pipeline) the revenue is 30. -/
theorem stats_revenue_delivered_only :
    (∀ (startOfToday : Nat) (orders : List OrderDoc),
      (getOrderStats startOfToday orders).totalRevenue =
        ((orders.filter (fun o => o.status == "delivered")).map
          (fun o => o.totalAmount.getD 0)).sum) ∧
    statsDocs.map OrderDoc.status = ["delivered", "delivered", "pending"] ∧
    statsDocs.map OrderDoc.totalAmount = [some 10, some 20, some 99] ∧
    (getOrderStats 0 statsDocs).totalRevenue = 30 := by
  have hgen : ∀ (startOfToday : Nat) (orders : List OrderDoc),
      (getOrderStats startOfToday orders).totalRevenue =
        ((orders.filter (fun o => o.status == "delivered")).map
          (fun o => o.totalAmount.getD 0)).sum := by
    intro startOfToday orders
    unfold getOrderStats aggregateSumTotalAmount
    rw [foldl_add_eq_sum]
    simp
  refine ⟨hgen, by rfl, by rfl, ?_⟩
  rw [hgen]
  have hconc : (statsDocs.filter (fun o => o.status == "delivered")).map
      (fun o => o.totalAmount.getD 0) = [10, 20] := by rfl
  rw [hconc]
  norm_num

/-- Inserting into the descending-by-`createdAt` list is a permutation of
    consing. -/
theorem insertByCreatedAtDesc_perm (o : OrderDoc) (l : List OrderDoc) :
    (insertByCreatedAtDesc o l).Perm (o :: l) := by
  induction l with
  | nil => exact List.Perm.refl _
  | cons x xs ih =>
    unfold insertByCreatedAtDesc
    split
    · exact (ih.cons x).trans (List.Perm.swap o x xs)
    · exact List.Perm.refl _

/-- The newest-first sort is a permutation of its input. -/
theorem sortByCreatedAtDesc_perm (l : List OrderDoc) :
    (sortByCreatedAtDesc l).Perm l := by
  induction l with
  | nil => exact List.Perm.refl _
  | cons x xs ih =>
    simp only [sortByCreatedAtDesc, List.foldr_cons]
    exact (insertByCreatedAtDesc_perm x _).trans (ih.cons x)

/-- C8: every order returned by `searchOrders` is a stored order matching
    the case-insensitive OR filter (narrowed by the phone substring when
    given); conversely, within the result cap every matching stored order
    is returned; and the concrete phone search `"555"` against the stored
    phones `555-0100`, `555-0101` and `777-0200` returns exactly the first
    two orders, newest first. -/
theorem search_text_spec :
    (∀ (orders : List OrderDoc) (q ph : Option String) (o : OrderDoc),
      o ∈ searchOrders orders q ph → o ∈ orders ∧ searchMatch q ph o = true) ∧
    (∀ (orders : List OrderDoc) (q ph : Option String) (o : OrderDoc),
      orders.length ≤ 100 → o ∈ orders → searchMatch q ph o = true →
        o ∈ searchOrders orders q ph) ∧
    searchOrders [searchDocA, searchDocB, searchDocC] none (some "555") =
      [searchDocA, searchDocB] := by
  refine ⟨?_, ?_, by rfl⟩
  · intro orders q ph o h
    have h1 : o ∈ sortByCreatedAtDesc (orders.filter (searchMatch q ph)) :=
      List.mem_of_mem_take h
    have h2 : o ∈ orders.filter (searchMatch q ph) :=
      (sortByCreatedAtDesc_perm _).mem_iff.mp h1
    exact List.mem_filter.mp h2
  · intro orders q ph o hlen hmem hmatch
    have hf : o ∈ orders.filter (searchMatch q ph) :=
      List.mem_filter.mpr ⟨hmem, hmatch⟩
    have hs : o ∈ sortByCreatedAtDesc (orders.filter (searchMatch q ph)) :=
      (sortByCreatedAtDesc_perm _).mem_iff.mpr hf
    have hlen2 :
        (sortByCreatedAtDesc (orders.filter (searchMatch q ph))).length ≤ 100 := by
      rw [(sortByCreatedAtDesc_perm _).length_eq]
      exact le_trans (List.length_filter_le _ _) hlen
    unfold searchOrders
    rw [List.take_of_length_le hlen2]
    exact hs

/-- C8 witness: both directions instantiated on the concrete store. -/
theorem search_text_spec_witness :
    (searchDocA ∈ [searchDocA, searchDocB, searchDocC] ∧
      searchMatch none (some "555") searchDocA = true) ∧
      searchDocA ∈ searchOrders [searchDocA, searchDocB, searchDocC] none (some "555") :=
  ⟨search_text_spec.1 [searchDocA, searchDocB, searchDocC] none (some "555")
      searchDocA (by decide),
    search_text_spec.2.1 [searchDocA, searchDocB, searchDocC] none (some "555")
      searchDocA (by decide) (by decide) (by decide)⟩

/-- C2 witness for the amended statement: precedence conjuncts
    instantiated at concrete inputs. -/
theorem alias_precedence_amended_witness :
    finalCustomerName samplePayload = samplePayload.customerName ∧
      finalTotalAmount cexC2Payload = cexC2Payload.total ∧
      (normItem sampleItem).name = sampleItem.name := by
  obtain ⟨h1, _, _, _, _, _, _, _, _, h10, h11, _⟩ := alias_precedence_amended
  exact ⟨h1 samplePayload (by decide), h10 cexC2Payload (by decide),
    h11 sampleItem (by decide)⟩
